import Mathlib

/-!
Shallow embedding of the `sre-monitoring-challenge` sample microservice
(`src/app/app.py`): the structured JSON logger (`StructuredLogger` and its
inner `JSONFormatter`), the request lifecycle hooks (`before_request`,
`after_request`) and the route handlers the specification's testable
properties talk about (`get_user`, `error_endpoint`, `flaky_endpoint`).

Modelling conventions:
- Python JSON-serializable values are the inductive `Json` below; a Python
  dict is an association list `List (String × Json)` in insertion order.
- A raised Python exception is `Except.error` in the `Except PyError` monad;
  a `try/except` block is an explicit match that swallows the caught class.
- Flask's request-scoped `g` object is `Option GContext`: `none` models the
  `RuntimeError` raised when no application context is active.
- The OpenTelemetry current-span lookup is an arbitrary
  `Except PyError (Option Span)`, so that both "no active span" and a raised
  lookup failure are representable.
- `random.random()` values are rationals, `random.choice` takes the chosen
  index as a `Fin`, and `uuid.uuid4()` takes the 128-bit random value as a
  `Nat` parameter.
-/

/-- JSON values, the codomain of everything the service serializes. -/
inductive Json where
  | null : Json
  | bool : Bool → Json
  | num : ℚ → Json
  | str : String → Json
  | arr : List Json → Json
  | obj : List (String × Json) → Json

/-- First-match association-list lookup, the semantics of `d[k]`-style
reads on the embedded Python dicts (keyed by strings). -/
def alookup {α : Type} (d : List (String × α)) (k : String) : Option α :=
  match d with
  | [] => none
  | (k2, v) :: rest => if k2 = k then some v else alookup rest k

/-- Python `dict.update`: keys already in `base` keep their position and take
the value from `upd`; keys only in `upd` are appended in `upd`'s order. -/
def dictUpdate (base upd : List (String × Json)) : List (String × Json) :=
  base.map (fun p => match alookup upd p.1 with
    | some v => (p.1, v)
    | none => p) ++
  upd.filter (fun p => (alookup base p.1).isNone)

theorem alookup_cons {α : Type} (k2 : String) (v : α) (rest : List (String × α))
    (k : String) :
    alookup ((k2, v) :: rest) k = if k2 = k then some v else alookup rest k := rfl

theorem alookup_append_left {α : Type} {a : List (String × α)} (b : List (String × α))
    {k : String} {v : α}
    (h : alookup a k = some v) : alookup (a ++ b) k = some v := by
  induction a with
  | nil => simp [alookup] at h
  | cons p rest ih =>
    obtain ⟨k2, w⟩ := p
    rw [alookup_cons] at h
    rw [List.cons_append, alookup_cons]
    by_cases hpk : k2 = k
    · rwa [if_pos hpk] at h ⊢
    · rw [if_neg hpk] at h ⊢
      exact ih h

theorem alookup_append_right {α : Type} {a : List (String × α)} (b : List (String × α))
    {k : String} (h : alookup a k = none) : alookup (a ++ b) k = alookup b k := by
  induction a with
  | nil => simp
  | cons p rest ih =>
    obtain ⟨k2, w⟩ := p
    rw [alookup_cons] at h
    rw [List.cons_append, alookup_cons]
    by_cases hpk : k2 = k
    · rw [if_pos hpk] at h
      exact absurd h (by simp)
    · rw [if_neg hpk] at h ⊢
      exact ih h

theorem alookup_filter_of_none {α : Type} {l : List (String × α)} {k : String}
    (q : String × α → Bool) (h : alookup l k = none) :
    alookup (l.filter q) k = none := by
  induction l with
  | nil => simp [alookup]
  | cons p rest ih =>
    obtain ⟨k2, w⟩ := p
    rw [alookup_cons] at h
    by_cases hpk : k2 = k
    · rw [if_pos hpk] at h
      exact absurd h (by simp)
    · rw [if_neg hpk] at h
      rw [List.filter_cons]
      split
      · rw [alookup_cons, if_neg hpk]
        exact ih h
      · exact ih h

theorem alookup_map_update {base upd : List (String × Json)} {k : String}
    (h : alookup upd k = none) :
    alookup (base.map (fun p => match alookup upd p.1 with
      | some v => (p.1, v)
      | none => p)) k = alookup base k := by
  induction base with
  | nil => simp [alookup]
  | cons p rest ih =>
    obtain ⟨k2, w⟩ := p
    rw [List.map_cons]
    by_cases hpk : k2 = k
    · subst hpk
      simp [h, alookup_cons]
    · cases hup : alookup upd k2 <;>
        simp [hup, alookup_cons, if_neg hpk, ih]

/-- Looking a key up after `dict.update` with a dict that does not contain
that key gives the same answer as before the update. -/
theorem alookup_dictUpdate {base upd : List (String × Json)} {k : String}
    (h : alookup upd k = none) :
    alookup (dictUpdate base upd) k = alookup base k := by
  unfold dictUpdate
  cases hb : alookup base k with
  | some v =>
    exact alookup_append_left _ (by rw [alookup_map_update h, hb])
  | none =>
    rw [alookup_append_right _ (by rw [alookup_map_update h, hb]),
      alookup_filter_of_none _ h]

/-- The lowercase hexadecimal digit character for `n < 16`, as used by
Python's `format(n, 'x')`: `0`-`9` then `a`-`f`. -/
def hexDigit (n : Nat) : Char :=
  if n < 10 then Char.ofNat (48 + n) else Char.ofNat (87 + n)

/-- A character is a lowercase hexadecimal digit. -/
def isLowerHex (c : Char) : Bool :=
  c.isDigit || (decide (97 ≤ c.toNat) && decide (c.toNat ≤ 102))

/-- Hexadecimal digits of `n`, most significant first (the digit string of
Python's `format(n, 'x')`; `0` renders as `"0"`). -/
def toHexM (n : Nat) : List Char :=
  if _h : n < 16 then [hexDigit n]
  else toHexM (n / 16) ++ [hexDigit (n % 16)]
decreasing_by exact Nat.div_lt_self (by omega) (by omega)

/-- Python `format(n, '0<w>x')`: the hex digits of `n`, left-padded with
`'0'` to a minimum width of `w` (never truncated). -/
def toHexPad (n w : Nat) : List Char :=
  List.replicate (w - (toHexM n).length) '0' ++ toHexM n

def pyFormatHex (n w : Nat) : String := String.mk (toHexPad n w)

theorem toHexM_length_pos (n : Nat) : 0 < (toHexM n).length := by
  rw [toHexM.eq_def]
  split <;> simp

theorem toHexM_length_le : ∀ (w : Nat), 0 < w → ∀ n, n < 16 ^ w →
    (toHexM n).length ≤ w := by
  intro w
  induction w with
  | zero => omega
  | succ w ih =>
    intro _ n hn
    rw [toHexM.eq_def]
    split
    · simp
    · rename_i h16
      have hw : 0 < w := by
        by_contra hw0
        have : w = 0 := by omega
        subst this
        simp at hn
        omega
      have hdiv : n / 16 < 16 ^ w := by
        rw [Nat.div_lt_iff_lt_mul (by omega)]
        calc n < 16 ^ (w + 1) := hn
        _ = 16 ^ w * 16 := by ring
      have := ih hw (n / 16) hdiv
      simp only [List.length_append, List.length_cons, List.length_nil]
      omega

theorem hexDigit_lower : ∀ m, m < 16 → isLowerHex (hexDigit m) = true := by decide

theorem toHexM_all_lower (n : Nat) : (toHexM n).all isLowerHex = true := by
  induction n using Nat.strong_induction_on with
  | _ n ih =>
    rw [toHexM.eq_def]
    split
    · rename_i h
      simp [List.all_cons, hexDigit_lower n h]
    · rename_i h
      rw [List.all_append, Bool.and_eq_true]
      refine ⟨?_, ?_⟩
      · exact ih (n / 16) (Nat.div_lt_self (by omega) (by omega))
      · simp [List.all_cons, hexDigit_lower (n % 16) (Nat.mod_lt n (by omega))]

theorem toHexPad_length {n w : Nat} (hw : 0 < w) (hn : n < 16 ^ w) :
    (toHexPad n w).length = w := by
  have h1 := toHexM_length_le w hw n hn
  simp only [toHexPad, List.length_append, List.length_replicate]
  omega

theorem toHexPad_all_lower (n w : Nat) : (toHexPad n w).all isLowerHex = true := by
  rw [toHexPad, List.all_append, Bool.and_eq_true]
  refine ⟨?_, toHexM_all_lower n⟩
  simp only [List.all_eq_true]
  intro c hc
  rw [List.eq_of_mem_replicate hc]
  decide

theorem pyFormatHex_length {n w : Nat} (hw : 0 < w) (hn : n < 16 ^ w) :
    (pyFormatHex n w).length = w := by
  show (toHexPad n w).length = w
  exact toHexPad_length hw hn

theorem pyFormatHex_all_lower (n w : Nat) :
    (pyFormatHex n w).data.all isLowerHex = true := toHexPad_all_lower n w

/-- The character sequence of `str(uuid.uuid4())` when the generator drew the
128-bit value `u`: 32 lowercase hex digits in 8-4-4-4-12 groups. -/
def uuidChars (u : Nat) : List Char :=
  let h := toHexPad (u % 2 ^ 128) 32
  h.take 8 ++ ['-'] ++ (h.drop 8).take 4 ++ ['-'] ++ (h.drop 12).take 4 ++
    ['-'] ++ (h.drop 16).take 4 ++ ['-'] ++ h.drop 20

def uuidStr (u : Nat) : String := String.mk (uuidChars u)

theorem uuid_hex_length (u : Nat) : (toHexPad (u % 2 ^ 128) 32).length = 32 := by
  refine toHexPad_length (by omega) ?_
  have h1 : u % 2 ^ 128 < 2 ^ 128 := Nat.mod_lt u (by positivity)
  have h2 : (16 : ℕ) ^ 32 = 2 ^ 128 := by norm_num
  omega

theorem uuidChars_length (u : Nat) : (uuidChars u).length = 36 := by
  have h := uuid_hex_length u
  simp only [uuidChars, List.length_append, List.length_take, List.length_drop,
    List.length_cons, List.length_nil, h]
  omega

theorem uuidStr_length (u : Nat) : (uuidStr u).length = 36 := uuidChars_length u

theorem uuidStr_ne_empty (u : Nat) : uuidStr u ≠ "" := by
  intro h
  have : (uuidStr u).length = 0 := by rw [h]; rfl
  rw [uuidStr_length] at this
  omega

/-- Python string slicing `s[:n]`. -/
def pySlice (s : String) (n : Nat) : String := String.mk (s.data.take n)

theorem pySlice_uuid_length (u : Nat) : (pySlice (uuidStr u) 8).length = 8 := by
  show ((uuidStr u).data.take 8).length = 8
  rw [List.length_take]
  have := uuidChars_length u
  show min 8 (uuidChars u).length = 8
  omega

theorem pySlice_uuid_ne_empty (u : Nat) : pySlice (uuidStr u) 8 ≠ "" := by
  intro h
  have : (pySlice (uuidStr u) 8).length = 0 := by rw [h]; rfl
  rw [pySlice_uuid_length] at this
  omega

/-- Python exceptions, split into the classes the source's `except` clauses
distinguish: `RuntimeError` (raised by Flask's `g` outside an application
context) versus every other `Exception`. -/
inductive PyError where
  | runtimeError : String → PyError
  | exception : String → PyError

/-- An OpenTelemetry `SpanContext`: the integers behind
`span.get_span_context().trace_id` and `.span_id`. -/
structure SpanContext where
  trace_id : Nat
  span_id : Nat

/-- An OpenTelemetry span as seen by the formatter: whether
`span.is_recording()` holds, and its span context. -/
structure Span where
  is_recording : Bool
  ctx : SpanContext

/-- Flask's request-scoped `g` object as the formatter reads it: the
attributes `before_request` may have set (`hasattr` returns false on a
missing attribute). -/
structure GContext where
  correlation_id : Option String
  start_time : Option ℚ

/-- The ambient state a single `JSONFormatter.format` call observes:
the application-context `g` (absent means `g` raises `RuntimeError`),
the result of the `trace.get_current_span()` lookup (which may itself
raise), and the `datetime.utcnow().isoformat()` string. -/
structure FormatEnv where
  gCtx : Option GContext
  spanResult : Except PyError (Option Span)
  nowIso : String

/-- The four severities the logger exposes, with CPython `logging`'s
numeric values and level names. -/
inductive LogLevel where
  | DEBUG : LogLevel
  | INFO : LogLevel
  | WARNING : LogLevel
  | ERROR : LogLevel

def LogLevel.toNat : LogLevel → Nat
  | .DEBUG => 10
  | .INFO => 20
  | .WARNING => 30
  | .ERROR => 40

def LogLevel.levelname : LogLevel → String
  | .DEBUG => "DEBUG"
  | .INFO => "INFO"
  | .WARNING => "WARNING"
  | .ERROR => "ERROR"

/-- A `logging.LogRecord` as `JSONFormatter.format` consumes it: level,
message (`record.getMessage()`, no percent-args are ever passed), the
optional `extra_fields` attribute attached via `extra=`, and the formatted
`exc_info` when present. -/
structure LogRecord where
  level : LogLevel
  msg : String
  extra_fields : Option (List (String × Json))
  exc_info : Option String

/-- The record each `StructuredLogger` convenience method builds:
`extra = {"extra_fields": kwargs} if kwargs else None`, and no `exc_info`. -/
def mkRecord (lvl : LogLevel) (message : String) (kwargs : List (String × Json)) :
    LogRecord :=
  { level := lvl, msg := message,
    extra_fields := if kwargs.isEmpty then none else some kwargs,
    exc_info := none }

/-- The initial `log_entry` dict of `JSONFormatter.format`. -/
def baseEntry (env : FormatEnv) (record : LogRecord) : List (String × Json) :=
  [("timestamp", Json.str (env.nowIso ++ "Z")),
   ("level", Json.str record.level.levelname),
   ("message", Json.str record.msg),
   ("service", Json.str "sample-service"),
   ("version", Json.str "1.0.0")]

/-- The two trace fields added for a recording span:
`format(trace_id, '032x')` and `format(span_id, '016x')`. -/
def tracePart (sp : Span) : List (String × Json) :=
  [("trace_id", Json.str (pyFormatHex sp.ctx.trace_id 32)),
   ("span_id", Json.str (pyFormatHex sp.ctx.span_id 16))]

/-- Body of the first `try` block: `if hasattr(g, 'correlation_id'):
log_entry["correlation_id"] = g.correlation_id`. Touching `g` outside an
application context raises `RuntimeError`. -/
def corrAttempt (env : FormatEnv) (entry : List (String × Json)) :
    Except PyError (List (String × Json)) :=
  match env.gCtx with
  | none => Except.error (PyError.runtimeError "Working outside of application context.")
  | some gs =>
    match gs.correlation_id with
    | some c => Except.ok (entry ++ [("correlation_id", Json.str c)])
    | none => Except.ok entry

/-- The first `try/except RuntimeError: pass` block around the correlation-id
enrichment. -/
def corrTry (env : FormatEnv) (entry : List (String × Json)) :
    Except PyError (List (String × Json)) :=
  match corrAttempt env entry with
  | Except.ok e => Except.ok e
  | Except.error (PyError.runtimeError _) => Except.ok entry
  | Except.error e => Except.error e

/-- Body of the second `try` block: read the current span and, if it is
recording, add `trace_id`/`span_id` from its span context. -/
def traceAttempt (env : FormatEnv) (entry : List (String × Json)) :
    Except PyError (List (String × Json)) :=
  match env.spanResult with
  | Except.error e => Except.error e
  | Except.ok none => Except.ok entry
  | Except.ok (some sp) =>
    if sp.is_recording then Except.ok (entry ++ tracePart sp)
    else Except.ok entry

/-- The second `try/except Exception: pass` block: every failure of the trace
lookup degrades to leaving the entry unchanged. -/
def traceTry (env : FormatEnv) (entry : List (String × Json)) :
    Except PyError (List (String × Json)) :=
  match traceAttempt env entry with
  | Except.ok e => Except.ok e
  | Except.error _ => Except.ok entry

/-- `JSONFormatter.format` (src/app/app.py lines 44-80), in the exception
monad: build the base entry, best-effort-add correlation id and trace ids,
merge `extra_fields`, append formatted `exc_info`. An `Except.error` result
would model an exception escaping `format`. (The final `json.dumps` is
`Json.dumps` below and cannot fail on `Json` values.) -/
def JSONFormatter.format (env : FormatEnv) (record : LogRecord) :
    Except PyError (List (String × Json)) :=
  match corrTry env (baseEntry env record) with
  | Except.error e => Except.error e
  | Except.ok e1 =>
    match traceTry env e1 with
    | Except.error e => Except.error e
    | Except.ok e2 =>
      let e3 := match record.extra_fields with
        | some kw => dictUpdate e2 kw
        | none => e2
      let e4 := match record.exc_info with
        | some s => e3 ++ [("exception", Json.str s)]
        | none => e3
      Except.ok e4

/-- Total description of the correlation-id step (what the `try` block leaves
in the entry). -/
def corrField (g : Option GContext) (entry : List (String × Json)) :
    List (String × Json) :=
  match g with
  | some gs =>
    match gs.correlation_id with
    | some c => entry ++ [("correlation_id", Json.str c)]
    | none => entry
  | none => entry

/-- Total description of the trace step (what the `try` block leaves in the
entry). -/
def traceField (sr : Except PyError (Option Span)) (entry : List (String × Json)) :
    List (String × Json) :=
  match sr with
  | Except.ok (some sp) => if sp.is_recording then entry ++ tracePart sp else entry
  | _ => entry

def extraField (xf : Option (List (String × Json))) (entry : List (String × Json)) :
    List (String × Json) :=
  match xf with
  | some kw => dictUpdate entry kw
  | none => entry

def excField (xi : Option String) (entry : List (String × Json)) :
    List (String × Json) :=
  match xi with
  | some s => entry ++ [("exception", Json.str s)]
  | none => entry

theorem corrTry_eq (env : FormatEnv) (entry : List (String × Json)) :
    corrTry env entry = Except.ok (corrField env.gCtx entry) := by
  obtain ⟨g, sr, now⟩ := env
  rcases g with _ | ⟨cid, st⟩
  · rfl
  · rcases cid with _ | c <;> rfl

theorem traceTry_eq (env : FormatEnv) (entry : List (String × Json)) :
    traceTry env entry = Except.ok (traceField env.spanResult entry) := by
  obtain ⟨g, sr, now⟩ := env
  rcases sr with e | sp
  · rfl
  · rcases sp with _ | s
    · rfl
    · unfold traceTry traceAttempt traceField
      by_cases hrec : s.is_recording <;> simp [hrec]

/-- `JSONFormatter.format` never returns an error: both fallible enrichment
steps are wrapped in swallowing handlers, and the result is the base entry
decorated by the four (total) field stages. -/
theorem format_eq (env : FormatEnv) (record : LogRecord) :
    JSONFormatter.format env record =
      Except.ok (excField record.exc_info (extraField record.extra_fields
        (traceField env.spanResult (corrField env.gCtx (baseEntry env record))))) := by
  unfold JSONFormatter.format
  simp only [corrTry_eq, traceTry_eq]
  cases hxf : record.extra_fields <;> cases hxi : record.exc_info <;>
    simp [extraField, excField]

/-- `extra_fields` as built by the convenience methods is a plain
`dict.update` with the kwargs (the empty-kwargs case updates with nothing). -/
theorem extraField_mk (kwargs : List (String × Json)) (entry : List (String × Json)) :
    extraField (if kwargs.isEmpty then none else some kwargs) entry =
      dictUpdate entry kwargs := by
  cases hk : kwargs.isEmpty
  · simp [extraField]
  · have : kwargs = [] := List.isEmpty_iff.mp hk
    subst this
    simp [extraField, dictUpdate, alookup]

/-- Shape of `format` on a record coming from the public logging methods. -/
theorem format_mk (env : FormatEnv) (lvl : LogLevel) (message : String)
    (kwargs : List (String × Json)) :
    JSONFormatter.format env (mkRecord lvl message kwargs) =
      Except.ok (dictUpdate
        (traceField env.spanResult (corrField env.gCtx (baseEntry env (mkRecord lvl message kwargs))))
        kwargs) := by
  rw [format_eq]
  show Except.ok (excField none _) = _
  rw [excField]
  show Except.ok (extraField (if kwargs.isEmpty then none else some kwargs) _) = _
  rw [extraField_mk]

/-- JSON string escaping as CPython's `json.dumps` does with the default
`ensure_ascii=True` (lowercase `\uXXXX` escapes, surrogate pairs beyond the
BMP). -/
def escChar (c : Char) : List Char :=
  if c = '"' then ['\\', '"']
  else if c = '\\' then ['\\', '\\']
  else if c = '\n' then ['\\', 'n']
  else if c = '\t' then ['\\', 't']
  else if c = '\r' then ['\\', 'r']
  else if c.toNat = 8 then ['\\', 'b']
  else if c.toNat = 12 then ['\\', 'f']
  else if c.toNat < 32 then '\\' :: 'u' :: toHexPad c.toNat 4
  else if c.toNat < 127 then [c]
  else if c.toNat < 65536 then '\\' :: 'u' :: toHexPad c.toNat 4
  else
    let v := c.toNat - 65536
    ('\\' :: 'u' :: toHexPad (55296 + v / 1024) 4) ++
      ('\\' :: 'u' :: toHexPad (56320 + v % 1024) 4)

def dumpEsc : List Char → List Char
  | [] => []
  | c :: rest => escChar c ++ dumpEsc rest

/-- Rendering of a numeric JSON value. Integral values render as Python
ints; the decimal rendering of non-integral floats is abstracted (no claim
inspects serialized numbers). -/
def numRepr (q : ℚ) : List Char :=
  if q.den = 1 then (toString q.num).data
  else (toString q.num).data ++ '/' :: (toString q.den).data

mutual
/-- `json.dumps` with CPython's default separators `(', ', ': ')`. -/
def Json.dumps : Json → List Char
  | Json.null => ['n', 'u', 'l', 'l']
  | Json.bool true => ['t', 'r', 'u', 'e']
  | Json.bool false => ['f', 'a', 'l', 's', 'e']
  | Json.num q => numRepr q
  | Json.str s => '"' :: (dumpEsc s.data ++ ['"'])
  | Json.arr xs => '[' :: (dumpElems xs ++ [']'])
  | Json.obj kvs => Char.ofNat 123 :: (dumpFields kvs ++ [Char.ofNat 125])

def dumpElems : List Json → List Char
  | [] => []
  | [x] => Json.dumps x
  | x :: y :: rest => Json.dumps x ++ ',' :: ' ' :: dumpElems (y :: rest)

def dumpFields : List (String × Json) → List Char
  | [] => []
  | [(k, v)] => '"' :: dumpEsc k.data ++ '"' :: ':' :: ' ' :: Json.dumps v
  | (k, v) :: kv2 :: rest =>
      ('"' :: dumpEsc k.data ++ '"' :: ':' :: ' ' :: Json.dumps v) ++
        ',' :: ' ' :: dumpFields (kv2 :: rest)
end

/-- The logger threshold fixed in `StructuredLogger.__init__`:
`self.logger.setLevel(logging.INFO)` (numeric value 20). -/
def loggerLevel : Nat := 20

/-- One `self.logger.<level>(message, extra=extra)` call. CPython's
`logging.Logger` hands the record to the single stream handler iff the
record's level passes the logger threshold (`isEnabledFor`); were `format`
to raise, `Handler.emit` would swallow the error (`handleError`) and write
nothing to the sink. Returns the list of JSON lines written to the sink. -/
def StructuredLogger.log (env : FormatEnv) (lvl : LogLevel) (message : String)
    (kwargs : List (String × Json)) : List String :=
  if loggerLevel ≤ lvl.toNat then
    match JSONFormatter.format env (mkRecord lvl message kwargs) with
    | Except.ok entry => [String.mk (Json.dumps (Json.obj entry))]
    | Except.error _ => []
  else []

def StructuredLogger.info (env : FormatEnv) (message : String)
    (kwargs : List (String × Json)) : List String :=
  StructuredLogger.log env LogLevel.INFO message kwargs

def StructuredLogger.warning (env : FormatEnv) (message : String)
    (kwargs : List (String × Json)) : List String :=
  StructuredLogger.log env LogLevel.WARNING message kwargs

def StructuredLogger.error (env : FormatEnv) (message : String)
    (kwargs : List (String × Json)) : List String :=
  StructuredLogger.log env LogLevel.ERROR message kwargs

def StructuredLogger.debug (env : FormatEnv) (message : String)
    (kwargs : List (String × Json)) : List String :=
  StructuredLogger.log env LogLevel.DEBUG message kwargs

/-- Python `round(x, nd)` on exact rationals: round half to even at `nd`
decimal places. -/
def roundHalfEven (q : ℚ) : ℤ :=
  let f := ⌊q⌋
  let r := q - f
  if r < 1 / 2 then f
  else if 1 / 2 < r then f + 1
  else if f % 2 = 0 then f else f + 1

def pyRound (nd : Nat) (q : ℚ) : ℚ := (roundHalfEven (q * 10 ^ nd) : ℚ) / 10 ^ nd

/-- `random.choice(l)` with the drawn index made explicit. -/
def pyChoice {α : Type} (l : List α) (i : Fin l.length) : α := l.get i

/-- A Flask/werkzeug response as the lifecycle hooks and handlers see it. -/
structure Response where
  status : Nat
  body : Json
  headers : List (String × String)
  content_length : Option Nat

/-- werkzeug `response.headers[k] = v`: drop any previous value for the key
and record the new one. -/
def setHeader (hs : List (String × String)) (k v : String) :
    List (String × String) :=
  hs.filter (fun p => !(p.1 == k)) ++ [(k, v)]

theorem alookup_filter_ne (hs : List (String × String)) (k : String) :
    alookup (hs.filter (fun p => !(p.1 == k))) k = none := by
  induction hs with
  | nil => rfl
  | cons p rest ih =>
    obtain ⟨k2, w⟩ := p
    rw [List.filter_cons]
    by_cases hk : k2 = k
    · subst hk
      simp [ih]
    · simp [hk, alookup_cons, ih]

theorem alookup_setHeader (hs : List (String × String)) (k v : String) :
    alookup (setHeader hs k v) k = some v := by
  unfold setHeader
  rw [alookup_append_right _ (alookup_filter_ne hs k), alookup_cons, if_pos rfl]

/-- Attribute access on `g` (`g.start_time`, `g.correlation_id`): raises
`AttributeError` when the attribute was never set. -/
def pyAttr {α : Type} (name2 : String) : Option α → Except PyError α
  | some a => Except.ok a
  | none => Except.error (PyError.exception name2)

/-- `before_request` (src/app/app.py lines 164-174): store a fresh
correlation id (`str(uuid.uuid4())` for drawn value `u`) and the start time
on `g`, and log "Request started". Returns the populated `g` and the log
lines written. -/
def before_request (u : Nat) (t : ℚ) (sr : Except PyError (Option Span))
    (nowIso : String) (method path remote_addr user_agent : String) :
    GContext × List String :=
  let gs : GContext := { correlation_id := some (uuidStr u), start_time := some t }
  (gs,
   StructuredLogger.info { gCtx := some gs, spanResult := sr, nowIso := nowIso }
     "Request started"
     [("method", Json.str method), ("path", Json.str path),
      ("remote_addr", Json.str remote_addr), ("user_agent", Json.str user_agent)])

/-- `after_request` (src/app/app.py lines 176-190): compute the duration from
`g.start_time`, log "Request completed", then attach the `X-Correlation-ID`
header from `g.correlation_id` and return the response. Attribute reads on
`g` raise if the attribute is missing. -/
def after_request (gs : GContext) (sr : Except PyError (Option Span))
    (nowIso : String) (tNow : ℚ) (method path : String) (response : Response) :
    Except PyError (Response × List String) := do
  let st ← pyAttr "start_time" gs.start_time
  let duration := tNow - st
  let logs := StructuredLogger.info { gCtx := some gs, spanResult := sr, nowIso := nowIso }
    "Request completed"
    [("method", Json.str method), ("path", Json.str path),
     ("status_code", Json.num response.status),
     ("duration_ms", Json.num (pyRound 2 (duration * 1000))),
     ("response_size", Json.num ((response.content_length).getD 0))]
  let cid ← pyAttr "correlation_id" gs.correlation_id
  pure ({ response with headers := setHeader response.headers "X-Correlation-ID" cid },
    logs)

/-- `get_user` (src/app/app.py lines 286-344), `/api/users/<int:user_id>`:
user ids above 1000 get a 404 error body, the rest a synthetic user record.
The simulated database delay and the elapsed time are explicit parameters.
Returns the response and the log lines emitted. -/
def get_user (env : FormatEnv) (user_id : Nat) (db_lookup_time duration : ℚ) :
    Response × List String :=
  let l1 := StructuredLogger.info env "Fetching user by ID"
    [("operation", Json.str "get_user"), ("user_id", Json.num user_id)]
  let l2 := StructuredLogger.debug env "Database lookup completed"
    [("operation", Json.str "get_user"), ("user_id", Json.num user_id),
     ("db_duration_ms", Json.num (pyRound 2 (db_lookup_time * 1000)))]
  if user_id > 1000 then
    let l3 := StructuredLogger.warning env "User not found"
      [("operation", Json.str "get_user"), ("user_id", Json.num user_id),
       ("error_type", Json.str "not_found"),
       ("duration_ms", Json.num (pyRound 2 (duration * 1000)))]
    ({ status := 404, body := Json.obj [("error", Json.str "User not found")],
       headers := [], content_length := none }, l1 ++ l2 ++ l3)
  else
    let user : List (String × Json) :=
      [("id", Json.num user_id),
       ("name", Json.str ("User " ++ toString user_id)),
       ("email", Json.str ("user" ++ toString user_id ++ "@example.com")),
       ("created_at", Json.str "2023-01-01T00:00:00Z")]
    let l3 := StructuredLogger.info env "User retrieved successfully"
      [("operation", Json.str "get_user"), ("user_id", Json.num user_id),
       ("user_email", Json.str ("user" ++ toString user_id ++ "@example.com")),
       ("db_duration_ms", Json.num (pyRound 2 (db_lookup_time * 1000))),
       ("total_duration_ms", Json.num (pyRound 2 (duration * 1000)))]
    ({ status := 200, body := Json.obj user, headers := [], content_length := none },
     l1 ++ l2 ++ l3)

/-- The four declared error classifications of `/api/error`. -/
def errorTypes : List String :=
  ["database_timeout", "external_service_down", "memory_limit", "invalid_state"]

/-- `error_endpoint` (src/app/app.py lines 391-428), `/api/error`: always a
500 with a structured error body; `i` is the index `random.choice` drew and
`u` the 128-bit value behind `uuid.uuid4()` (the error id is its first 8
characters). -/
def error_endpoint (env : FormatEnv) (i : Fin errorTypes.length) (u : Nat)
    (duration : ℚ) : Response × List String :=
  let error_type := pyChoice errorTypes i
  let error_id := pySlice (uuidStr u) 8
  let l1 := StructuredLogger.error env "Predictable error endpoint triggered"
    [("operation", Json.str "error_endpoint"), ("error_type", Json.str error_type),
     ("error_id", Json.str error_id), ("always_fails", Json.bool true),
     ("duration_ms", Json.num (pyRound 2 (duration * 1000))),
     ("stack_trace", Json.bool true)]
  ({ status := 500,
     body := Json.obj
       [("error", Json.str "Internal server error"),
        ("message", Json.str "This endpoint always returns an error for testing"),
        ("error_type", Json.str error_type), ("error_id", Json.str error_id)],
     headers := [], content_length := none }, l1)

/-- The four intermittent error classifications of `/api/flaky`. -/
def flakyErrorTypes : List String :=
  ["network_timeout", "service_unavailable", "rate_limit", "circuit_breaker"]

/-- `flaky_endpoint` (src/app/app.py lines 430-488), `/api/flaky`:
`error_chance` is the `random.random()` draw (modelled as an exact rational;
the literal `0.3` is `3/10`); the endpoint errors iff `error_chance < 0.3`. -/
def flaky_endpoint (env : FormatEnv) (error_chance : ℚ)
    (i : Fin flakyErrorTypes.length) (u : Nat) (duration : ℚ) :
    Response × List String :=
  let will_error := error_chance < 3 / 10
  let l1 := StructuredLogger.info env "Processing flaky endpoint"
    [("operation", Json.str "flaky_endpoint"), ("error_probability", Json.num (3 / 10)),
     ("random_value", Json.num (pyRound 3 error_chance))]
  if will_error then
    let error_type := pyChoice flakyErrorTypes i
    let error_id := pySlice (uuidStr u) 8
    let l2 := StructuredLogger.error env "Flaky endpoint error occurred"
      [("operation", Json.str "flaky_endpoint"), ("error_type", Json.str error_type),
       ("error_id", Json.str error_id),
       ("duration_ms", Json.num (pyRound 2 (duration * 1000))),
       ("stack_trace", Json.bool true)]
    ({ status := 500,
       body := Json.obj
         [("error", Json.str "Service temporarily unavailable"),
          ("message", Json.str "This endpoint fails intermittently for realistic testing"),
          ("error_type", Json.str error_type), ("error_id", Json.str error_id)],
       headers := [], content_length := none }, l1 ++ l2)
  else
    let l2 := StructuredLogger.info env "Flaky endpoint succeeded"
      [("operation", Json.str "flaky_endpoint"), ("outcome", Json.str "success"),
       ("duration_ms", Json.num (pyRound 2 (duration * 1000)))]
    ({ status := 200,
       body := Json.obj
         [("message", Json.str "Success! The flaky endpoint worked this time.")],
       headers := [], content_length := none }, l1 ++ l2)

/-- Field lookup on a JSON object body. -/
def jsonField (j : Json) (k : String) : Option Json :=
  match j with
  | Json.obj l => alookup l k
  | _ => none

theorem alookup_append_ne {α : Type} (e : List (String × α)) (k2 : String) (v : α)
    (k : String) (h : k2 ≠ k) : alookup (e ++ [(k2, v)]) k = alookup e k := by
  cases he : alookup e k with
  | some w => exact alookup_append_left _ he
  | none =>
    rw [alookup_append_right _ he, alookup_cons, if_neg h]
    rfl

theorem baseEntry_corr (env : FormatEnv) (record : LogRecord) :
    alookup (baseEntry env record) "correlation_id" = none := rfl

theorem baseEntry_trace (env : FormatEnv) (record : LogRecord) :
    alookup (baseEntry env record) "trace_id" = none := rfl

theorem baseEntry_span (env : FormatEnv) (record : LogRecord) :
    alookup (baseEntry env record) "span_id" = none := rfl

theorem baseEntry_exc (env : FormatEnv) (record : LogRecord) :
    alookup (baseEntry env record) "exception" = none := rfl

theorem corrField_lookup (g : Option GContext) (e : List (String × Json))
    (h : alookup e "correlation_id" = none) :
    alookup (corrField g e) "correlation_id" =
      (g.bind GContext.correlation_id).map Json.str := by
  rcases g with _ | ⟨cid, st⟩
  · simpa [corrField] using h
  · rcases cid with _ | c
    · simpa [corrField] using h
    · show alookup (e ++ [("correlation_id", Json.str c)]) "correlation_id" = some (Json.str c)
      rw [alookup_append_right _ h, alookup_cons, if_pos rfl]

theorem corrField_lookup_ne (g : Option GContext) (e : List (String × Json))
    (k : String) (hk : k ≠ "correlation_id") :
    alookup (corrField g e) k = alookup e k := by
  rcases g with _ | ⟨cid, st⟩
  · rfl
  · rcases cid with _ | c
    · rfl
    · exact alookup_append_ne e _ _ k (fun hc => hk hc.symm)

theorem traceField_lookup_ne (sr : Except PyError (Option Span))
    (e : List (String × Json)) (k : String)
    (h1 : k ≠ "trace_id") (h2 : k ≠ "span_id") :
    alookup (traceField sr e) k = alookup e k := by
  rcases sr with err | sp
  · rfl
  · rcases sp with _ | s
    · rfl
    · show alookup (if s.is_recording = true then e ++ tracePart s else e) k = alookup e k
      by_cases hrec : s.is_recording
      · rw [if_pos hrec]
        have hsplit : e ++ tracePart s =
            (e ++ [("trace_id", Json.str (pyFormatHex s.ctx.trace_id 32))]) ++
              [("span_id", Json.str (pyFormatHex s.ctx.span_id 16))] := by
          simp [tracePart]
        rw [hsplit, alookup_append_ne _ _ _ k (fun hc => h2 hc.symm),
          alookup_append_ne _ _ _ k (fun hc => h1 hc.symm)]
      · rw [if_neg hrec]

theorem traceField_trace_lookup (s : Span) (e : List (String × Json))
    (hrec : s.is_recording = true) (h : alookup e "trace_id" = none) :
    alookup (traceField (Except.ok (some s)) e) "trace_id" =
      some (Json.str (pyFormatHex s.ctx.trace_id 32)) := by
  show alookup (if s.is_recording = true then e ++ tracePart s else e) "trace_id" = _
  rw [if_pos hrec, alookup_append_right _ h]
  rfl

theorem traceField_span_lookup (s : Span) (e : List (String × Json))
    (hrec : s.is_recording = true) (h : alookup e "span_id" = none) :
    alookup (traceField (Except.ok (some s)) e) "span_id" =
      some (Json.str (pyFormatHex s.ctx.span_id 16)) := by
  show alookup (if s.is_recording = true then e ++ tracePart s else e) "span_id" = _
  rw [if_pos hrec, alookup_append_right _ h]
  rfl

theorem log_length_of_enabled (env : FormatEnv) (lvl : LogLevel) (message : String)
    (kwargs : List (String × Json)) (h : loggerLevel ≤ lvl.toNat) :
    (StructuredLogger.log env lvl message kwargs).length = 1 := by
  unfold StructuredLogger.log
  rw [if_pos h, format_mk]
  rfl

/-- Status code of the flaky endpoint as a function of the random draw. -/
theorem flaky_status (env : FormatEnv) (error_chance : ℚ)
    (i : Fin flakyErrorTypes.length) (u : Nat) (duration : ℚ) :
    (flaky_endpoint env error_chance i u duration).1.status =
      if error_chance < 3 / 10 then 500 else 200 := by
  unfold flaky_endpoint
  by_cases h : error_chance < 3 / 10 <;> simp [h]

theorem exceptMap_ok {γ α β : Type} (f : α → β) (x : α) :
    Except.map f (Except.ok x : Except γ α) = Except.ok (f x) := rfl

/-- A log-call environment with no application context and no active span
(the situation of process-startup log calls). -/
def quietEnv : FormatEnv :=
  { gCtx := none, spanResult := Except.ok none, nowIso := "2024-01-01T00:00:00" }

/-- C1: every call through the public logging entry points (debug, info,
warning, error), with any message, any caller-supplied fields and any
context state (request context present or absent, span present, recording
or not, or the span lookup itself raising) reaches `JSONFormatter.format`,
and `format` never returns an error (an `Except.error` would model an
exception escaping to the caller): each enrichment failure is swallowed by
its handler and the record is emitted with the fields that could be
gathered. -/
theorem C1_logging_never_raises (env : FormatEnv) (record : LogRecord) :
    ∃ entry, JSONFormatter.format env record = Except.ok entry :=
  ⟨_, format_eq env record⟩

/-- C2 counterexample: a `debug` call writes zero lines to the log sink, not
exactly one, because `StructuredLogger.__init__` fixes the logger threshold
at INFO. -/
theorem C2_counterexample_debug_emits_nothing :
    (StructuredLogger.debug quietEnv "Database lookup completed" []).length ≠ 1 := by
  decide

/-- C2 (amended): each convenience entry point forwards to the shared
`StructuredLogger.log` with its severity fixed, and `info`, `warning` and
`error` write exactly one JSON-encoded line to the log sink per call; but
`debug` writes no line at all, because `__init__` sets the logger threshold
to INFO (20) and DEBUG (10) does not pass it. -/
theorem C2_per_level_emission (env : FormatEnv) (message : String)
    (kwargs : List (String × Json)) :
    StructuredLogger.info env message kwargs =
        StructuredLogger.log env LogLevel.INFO message kwargs ∧
    StructuredLogger.warning env message kwargs =
        StructuredLogger.log env LogLevel.WARNING message kwargs ∧
    StructuredLogger.error env message kwargs =
        StructuredLogger.log env LogLevel.ERROR message kwargs ∧
    StructuredLogger.debug env message kwargs =
        StructuredLogger.log env LogLevel.DEBUG message kwargs ∧
    (StructuredLogger.info env message kwargs).length = 1 ∧
    (StructuredLogger.warning env message kwargs).length = 1 ∧
    (StructuredLogger.error env message kwargs).length = 1 ∧
    StructuredLogger.debug env message kwargs = [] :=
  ⟨rfl, rfl, rfl, rfl,
   log_length_of_enabled env LogLevel.INFO message kwargs (by decide),
   log_length_of_enabled env LogLevel.WARNING message kwargs (by decide),
   log_length_of_enabled env LogLevel.ERROR message kwargs (by decide),
   rfl⟩

/-- C3: for every log call made inside a request context whose `g` was
populated by that request's `before_request` (and whose caller-supplied
fields do not use the reserved key "correlation_id" — no call site does),
the emitted record's `correlation_id` equals the UUID string
`str(uuid.uuid4())` generated by the start-hook; being equal to that
per-request constant, the value is identical across every log line emitted
during the request. -/
theorem C3_correlation_id_matches_start_hook
    (u : Nat) (t : ℚ) (sr sr2 : Except PyError (Option Span))
    (nowIso nowIso2 method path remote_addr user_agent : String)
    (lvl : LogLevel) (msg : String) (kwargs : List (String × Json))
    (hkw : alookup kwargs "correlation_id" = none) :
    Except.map (fun e => alookup e "correlation_id")
      (JSONFormatter.format
        { gCtx := some (before_request u t sr nowIso method path remote_addr user_agent).1,
          spanResult := sr2, nowIso := nowIso2 }
        (mkRecord lvl msg kwargs)) =
      Except.ok (some (Json.str (uuidStr u))) := by
  rw [format_mk, exceptMap_ok, alookup_dictUpdate hkw,
    traceField_lookup_ne _ _ _ (by decide) (by decide),
    corrField_lookup _ _ (baseEntry_corr _ _)]
  rfl

/-- C3 witness: a concrete in-request log call carries the start-hook's
correlation id. -/
theorem C3_witness :
    alookup [("operation", Json.str "list_users")] "correlation_id" = none ∧
    Except.map (fun e => alookup e "correlation_id")
      (JSONFormatter.format
        { gCtx := some (before_request 7 0 (Except.ok none) "2024-01-01T00:00:00"
            "GET" "/api/users" "127.0.0.1" "curl").1,
          spanResult := Except.ok none, nowIso := "2024-01-01T00:00:00" }
        (mkRecord LogLevel.INFO "Fetching user list"
          [("operation", Json.str "list_users")])) =
      Except.ok (some (Json.str (uuidStr 7))) :=
  ⟨rfl, C3_correlation_id_matches_start_hook 7 0 (Except.ok none) (Except.ok none)
    "2024-01-01T00:00:00" "2024-01-01T00:00:00" "GET" "/api/users" "127.0.0.1" "curl"
    LogLevel.INFO "Fetching user list" [("operation", Json.str "list_users")] rfl⟩

/-- C4: `after_request` returns the same response object with the
`X-Correlation-ID` header set to the correlation identifier generated by
`before_request`; the header value is non-empty, and status, body and
content length are unchanged. Nothing in the hook inspects the status code,
so this holds in particular for responses with status >= 500. -/
theorem C4_after_request_sets_header_only
    (u : Nat) (t : ℚ) (sr sr2 : Except PyError (Option Span))
    (nowIso nowIso2 method path remote_addr user_agent : String)
    (tNow : ℚ) (response : Response) :
    ∃ out logs,
      after_request (before_request u t sr nowIso method path remote_addr user_agent).1
          sr2 nowIso2 tNow method path response = Except.ok (out, logs) ∧
      out.status = response.status ∧
      out.body = response.body ∧
      out.content_length = response.content_length ∧
      alookup out.headers "X-Correlation-ID" = some (uuidStr u) ∧
      uuidStr u ≠ "" := by
  refine ⟨_, _, rfl, rfl, rfl, rfl, ?_, uuidStr_ne_empty u⟩
  exact alookup_setHeader response.headers _ _

/-- C5: a log call made outside any request context (no application context,
so every access to `g` raises the swallowed `RuntimeError`) does not error,
and its emitted record contains no `correlation_id` field (caller-supplied
fields not using that key — no call site does). -/
theorem C5_outside_request_context_omits_correlation
    (sr : Except PyError (Option Span)) (nowIso : String)
    (lvl : LogLevel) (msg : String) (kwargs : List (String × Json))
    (hkw : alookup kwargs "correlation_id" = none) :
    Except.map (fun e => alookup e "correlation_id")
      (JSONFormatter.format { gCtx := none, spanResult := sr, nowIso := nowIso }
        (mkRecord lvl msg kwargs)) = Except.ok none := by
  rw [format_mk, exceptMap_ok, alookup_dictUpdate hkw,
    traceField_lookup_ne _ _ _ (by decide) (by decide)]
  exact congrArg Except.ok (baseEntry_corr _ _)

/-- C5 witness: a concrete startup-time log call (no request context) emits
a record without `correlation_id`. -/
theorem C5_witness :
    alookup [("service", Json.str "sample-service")] "correlation_id" = none ∧
    Except.map (fun e => alookup e "correlation_id")
      (JSONFormatter.format quietEnv
        (mkRecord LogLevel.INFO "Starting sample service"
          [("service", Json.str "sample-service")])) = Except.ok none :=
  ⟨rfl, C5_outside_request_context_omits_correlation (Except.ok none)
    "2024-01-01T00:00:00" LogLevel.INFO "Starting sample service"
    [("service", Json.str "sample-service")] rfl⟩

/-- C6: every call to `/api/error` returns status 500 with a JSON body whose
`error`, `message`, `error_type` and `error_id` fields are present; the
`error_id` (first 8 characters of a fresh UUID string) is a non-empty
string of exactly 8 characters, and `error_type` is one of the four
declared values. -/
theorem C6_error_endpoint_shape (env : FormatEnv) (i : Fin errorTypes.length)
    (u : Nat) (duration : ℚ) :
    (error_endpoint env i u duration).1.status = 500 ∧
    jsonField (error_endpoint env i u duration).1.body "error" =
      some (Json.str "Internal server error") ∧
    jsonField (error_endpoint env i u duration).1.body "message" =
      some (Json.str "This endpoint always returns an error for testing") ∧
    jsonField (error_endpoint env i u duration).1.body "error_type" =
      some (Json.str (pyChoice errorTypes i)) ∧
    pyChoice errorTypes i ∈ errorTypes ∧
    jsonField (error_endpoint env i u duration).1.body "error_id" =
      some (Json.str (pySlice (uuidStr u) 8)) ∧
    (pySlice (uuidStr u) 8).length = 8 ∧
    pySlice (uuidStr u) 8 ≠ "" :=
  ⟨rfl, rfl, rfl, rfl, List.get_mem errorTypes i.1 i.2, rfl,
   pySlice_uuid_length u, pySlice_uuid_ne_empty u⟩

/-- C7: a log call made while a recording trace span is active (the span
lookup succeeding, the span's identifiers within their 128-bit/64-bit
domains as the tracing SDK guarantees, and the caller-supplied fields not
using the reserved keys — no call site does) emits a record whose
`trace_id` is exactly 32 lowercase hex characters and whose `span_id` is
exactly 16 lowercase hex characters. -/
theorem C7_trace_ids_fixed_width (g : Option GContext) (nowIso : String)
    (s : Span) (lvl : LogLevel) (msg : String) (kwargs : List (String × Json))
    (hrec : s.is_recording = true)
    (ht : s.ctx.trace_id < 2 ^ 128) (hsp : s.ctx.span_id < 2 ^ 64)
    (hkw1 : alookup kwargs "trace_id" = none)
    (hkw2 : alookup kwargs "span_id" = none) :
    Except.map (fun e => (alookup e "trace_id", alookup e "span_id"))
      (JSONFormatter.format
        { gCtx := g, spanResult := Except.ok (some s), nowIso := nowIso }
        (mkRecord lvl msg kwargs)) =
      Except.ok (some (Json.str (pyFormatHex s.ctx.trace_id 32)),
        some (Json.str (pyFormatHex s.ctx.span_id 16))) ∧
    (pyFormatHex s.ctx.trace_id 32).length = 32 ∧
    (pyFormatHex s.ctx.trace_id 32).data.all isLowerHex = true ∧
    (pyFormatHex s.ctx.span_id 16).length = 16 ∧
    (pyFormatHex s.ctx.span_id 16).data.all isLowerHex = true := by
  refine ⟨?_, ?_, pyFormatHex_all_lower _ _, ?_, pyFormatHex_all_lower _ _⟩
  · rw [format_mk, exceptMap_ok]
    refine congrArg Except.ok ?_
    refine Prod.ext ?_ ?_
    · rw [alookup_dictUpdate hkw1]
      exact traceField_trace_lookup s _ hrec
        (by rw [corrField_lookup_ne _ _ _ (by decide)]; exact baseEntry_trace _ _)
    · rw [alookup_dictUpdate hkw2]
      exact traceField_span_lookup s _ hrec
        (by rw [corrField_lookup_ne _ _ _ (by decide)]; exact baseEntry_span _ _)
  · refine pyFormatHex_length (by norm_num) ?_
    have h2 : (16 : ℕ) ^ 32 = 2 ^ 128 := by norm_num
    omega
  · refine pyFormatHex_length (by norm_num) ?_
    have h2 : (16 : ℕ) ^ 16 = 2 ^ 64 := by norm_num
    omega

/-- C7 witness: a concrete recording span with in-range identifiers. -/
theorem C7_witness :
    (Span.mk true (SpanContext.mk 3 5)).is_recording = true ∧
    (Span.mk true (SpanContext.mk 3 5)).ctx.trace_id < 2 ^ 128 ∧
    (Span.mk true (SpanContext.mk 3 5)).ctx.span_id < 2 ^ 64 ∧
    (alookup ([] : List (String × Json)) "trace_id" = none) ∧
    (alookup ([] : List (String × Json)) "span_id" = none) ∧
    (Except.map (fun e => (alookup e "trace_id", alookup e "span_id"))
      (JSONFormatter.format
        { gCtx := none, spanResult := Except.ok (some (Span.mk true (SpanContext.mk 3 5))),
          nowIso := "2024-01-01T00:00:00" }
        (mkRecord LogLevel.INFO "Processing flaky endpoint" [])) =
      Except.ok (some (Json.str (pyFormatHex 3 32)), some (Json.str (pyFormatHex 5 16))) ∧
    (pyFormatHex 3 32).length = 32 ∧
    (pyFormatHex 3 32).data.all isLowerHex = true ∧
    (pyFormatHex 5 16).length = 16 ∧
    (pyFormatHex 5 16).data.all isLowerHex = true) :=
  ⟨rfl, by norm_num, by norm_num, rfl, rfl,
   C7_trace_ids_fixed_width none "2024-01-01T00:00:00"
     (Span.mk true (SpanContext.mk 3 5)) LogLevel.INFO "Processing flaky endpoint" []
     rfl (by norm_num) (by norm_num) rfl rfl⟩

/-- C8: the flaky endpoint returns 500 exactly when the random draw is below
0.3 and 200 otherwise; consequently, among all 2^53 values `k/2^53` that
`random.random()` can produce, exactly 2702159776422298 fail, a fraction
within 2^-53 of 30% — so a large number of calls observes a failure rate
statistically consistent with 30%. -/
theorem C8_flaky_threshold (env : FormatEnv) (error_chance : ℚ)
    (i : Fin flakyErrorTypes.length) (u : Nat) (duration : ℚ) :
    ((flaky_endpoint env error_chance i u duration).1.status = 500 ↔
      error_chance < 3 / 10) ∧
    ((flaky_endpoint env error_chance i u duration).1.status = 200 ↔
      ¬ error_chance < 3 / 10) ∧
    ((Finset.range (2 ^ 53)).filter
        (fun (k : ℕ) => (flaky_endpoint env ((k : ℚ) / 2 ^ 53) i u duration).1.status = 500)).card
      = 2702159776422298 ∧
    |(2702159776422298 : ℚ) / 2 ^ 53 - 3 / 10| < 1 / 2 ^ 53 := by
  have hiff : ∀ k : ℕ, ((k : ℚ) / 2 ^ 53 < 3 / 10) ↔ k < 2702159776422298 := by
    intro k
    rw [div_lt_div_iff₀ (by positivity) (by norm_num)]
    have hp : (3 : ℕ) * 2 ^ 53 = 27021597764222976 := by norm_num
    constructor
    · intro h
      have h3 : k * 10 < 3 * 2 ^ 53 := by exact_mod_cast h
      omega
    · intro h
      have h3 : k * 10 < 3 * 2 ^ 53 := by omega
      exact_mod_cast h3
  refine ⟨?_, ?_, ?_, ?_⟩
  · rw [flaky_status]
    by_cases h : error_chance < 3 / 10 <;> simp [h]
  · rw [flaky_status]
    by_cases h : error_chance < 3 / 10 <;> simp [h]
  · have hset : (Finset.range (2 ^ 53)).filter
        (fun (k : ℕ) => (flaky_endpoint env ((k : ℚ) / 2 ^ 53) i u duration).1.status = 500) =
        Finset.range 2702159776422298 := by
      ext k
      simp only [Finset.mem_filter, Finset.mem_range, flaky_status]
      constructor
      · rintro ⟨hk, hs⟩
        by_cases hlt : (k : ℚ) / 2 ^ 53 < 3 / 10
        · exact (hiff k).mp hlt
        · rw [if_neg hlt] at hs
          norm_num at hs
      · intro hk
        have hp : (2 : ℕ) ^ 53 = 9007199254740992 := by norm_num
        refine ⟨by omega, ?_⟩
        rw [if_pos ((hiff k).mpr hk)]
    rw [hset, Finset.card_range]
  · rw [abs_sub_lt_iff]
    constructor <;> norm_num

/-- C9: requesting `/api/users/1500` yields a 404 with an error body, and
requesting `/api/users/1` yields a 200 whose body has `id == 1`. -/
theorem C9_get_user_examples (env : FormatEnv) (db_lookup_time duration : ℚ) :
    (get_user env 1500 db_lookup_time duration).1.status = 404 ∧
    jsonField (get_user env 1500 db_lookup_time duration).1.body "error" =
      some (Json.str "User not found") ∧
    (get_user env 1 db_lookup_time duration).1.status = 200 ∧
    jsonField (get_user env 1 db_lookup_time duration).1.body "id" =
      some (Json.num 1) := by
  refine ⟨rfl, rfl, rfl, ?_⟩
  show some (Json.num ((1 : ℕ) : ℚ)) = some (Json.num 1)
  norm_num

/-- C10 counterexample: a caller-supplied field named "exception", passed
through a public entry point, is merged into the record by the
`extra_fields` update, so the emitted record does contain an `exception`
field — refuting the claim as universally stated. -/
theorem C10_counterexample_exception_kwarg :
    Except.map (fun e => alookup e "exception")
      (JSONFormatter.format quietEnv
        (mkRecord LogLevel.ERROR "Failed to start service"
          [("exception", Json.str "boom")])) =
      Except.ok (some (Json.str "boom")) := rfl

/-- C10 (amended): records built by the public entry points always carry
`exc_info = none`, so the error-with-exception branch of `format` is
unreachable from the public interface, and the emitted record contains no
`exception` field unless the caller itself supplies a field with that key
(no call site in the service does). -/
theorem C10_no_exception_field (env : FormatEnv) (lvl : LogLevel) (msg : String)
    (kwargs : List (String × Json))
    (hkw : alookup kwargs "exception" = none) :
    (mkRecord lvl msg kwargs).exc_info = none ∧
    Except.map (fun e => alookup e "exception")
      (JSONFormatter.format env (mkRecord lvl msg kwargs)) = Except.ok none := by
  refine ⟨rfl, ?_⟩
  rw [format_mk, exceptMap_ok, alookup_dictUpdate hkw,
    traceField_lookup_ne _ _ _ (by decide) (by decide),
    corrField_lookup_ne _ _ _ (by decide)]
  exact congrArg Except.ok (baseEntry_exc _ _)

/-- C10 witness: a concrete error-path log call without an "exception"
kwarg emits no exception field. -/
theorem C10_witness :
    alookup [("error_type", Json.str "database_timeout")] "exception" = none ∧
    ((mkRecord LogLevel.ERROR "Predictable error endpoint triggered"
        [("error_type", Json.str "database_timeout")]).exc_info = none ∧
     Except.map (fun e => alookup e "exception")
       (JSONFormatter.format quietEnv
         (mkRecord LogLevel.ERROR "Predictable error endpoint triggered"
           [("error_type", Json.str "database_timeout")])) = Except.ok none) :=
  ⟨rfl, C10_no_exception_field quietEnv LogLevel.ERROR
    "Predictable error endpoint triggered"
    [("error_type", Json.str "database_timeout")] rfl⟩
